import Mathlib

/-!
Shallow embedding of the modem core of the insteon-mqtt repository
(src/insteon_mqtt/Modem.py): the device registry, the cached link-database
mirror, the two-phase link add/delete protocol, the refresh orchestration
and the command dispatch facade.  Python dictionaries are embedded as
association lists with insertion-order semantics; the asynchronous command
sequence is embedded as the ordered list of enqueued steps; collaborator
modules that are not part of the sources (Address parsing, db.Modem lookup,
file persistence) are modelled from the specification and marked as such.
-/

set_option autoImplicit false

namespace InsteonMqtt

/-- Modelled from the spec: an Address is an immutable canonical endpoint
identifier with equality by canonical numeric id (Address.py is not part of
the sources). -/
structure Address where
  id : Nat
deriving DecidableEq, Repr

/-- A registered remote device: an Address plus an optional friendly name
(Python device objects; only the fields the Modem code reads). -/
structure Device where
  addr : Address
  name : Option String
deriving DecidableEq, Repr

/-- A value that Modem.find and the db operations accept as an address
argument: either a string token or an already-parsed Address. -/
inductive Token where
  | str (s : String)
  | addr (a : Address)
deriving DecidableEq, Repr

/-- The object Modem.find returns: the modem itself or a registered device. -/
inductive Endpoint where
  | modem
  | dev (d : Device)
deriving DecidableEq, Repr

/-- One entry of the modem link database: db.ModemEntry(addr, group,
is_controller, data).  The address field holds whatever Python value flowed
in (a Token), the payload is the 3-byte data list. -/
structure ModemEntry where
  addr : Token
  group : Nat
  is_controller : Bool
  data : List Nat
deriving DecidableEq, Repr

/-! Python dict embedding: association lists in insertion order.
Assignment replaces in place when the key is present and appends otherwise;
pop removes the key; get returns the value or none. -/

/-- Membership test for a key in a dict. -/
def containsKey {κ α : Type} [DecidableEq κ] (k : κ) (l : List (κ × α)) : Bool :=
  l.any (fun p => decide (p.1 = k))

/-- Python d[k] = v : replace in place if present, else append. -/
def dinsert {κ α : Type} [DecidableEq κ] (k : κ) (v : α) (l : List (κ × α)) :
    List (κ × α) :=
  if containsKey k l then l.map (fun p => if p.1 = k then (k, v) else p)
  else l ++ [(k, v)]

/-- Python d.pop(k, None) : drop the entry with the key. -/
def dpop {κ α : Type} [DecidableEq κ] (k : κ) (l : List (κ × α)) : List (κ × α) :=
  l.filter (fun p => decide (p.1 ≠ k))

/-- Python d.get(k, None) : first value stored under the key. -/
def dget {κ α : Type} [DecidableEq κ] (k : κ) : List (κ × α) → Option α
  | [] => none
  | p :: ps => if p.1 = k then some p.2 else dget k ps

/-- ASCII lowering of one character (the behavior of Python str.lower() on
the ascii identifiers this code handles). -/
def charLower (c : Char) : Char :=
  if 65 ≤ c.toNat ∧ c.toNat ≤ 90 then Char.ofNat (c.toNat + 32) else c

/-- Python s.lower(): lower every character. -/
def strLower (s : String) : String := String.mk (s.data.map charLower)

/-- Python s.strip(): drop whitespace from both ends. -/
def strStrip (s : String) : String :=
  String.mk
    (((s.data.dropWhile Char.isWhitespace).reverse.dropWhile Char.isWhitespace).reverse)

/-- The modem state the claims touch: its own address, the id index
(self.devices), the friendly-name index (self.device_names) and the local
link-database mirror (self.db entries). -/
structure Modem where
  addr : Address
  devices : List (Nat × Device)
  device_names : List (String × Device)
  db : List ModemEntry
deriving DecidableEq, Repr

/-- Address of an Endpoint relative to a modem state. -/
def endpointAddr (st : Modem) : Endpoint → Address
  | .modem => st.addr
  | .dev d => d.addr

/-- Python truthiness of device.name (None and "" are falsy). -/
def truthyName (d : Device) : Bool :=
  match d.name with
  | some s => decide (s ≠ "")
  | none => false

/-- The name under which a truthy-named device is indexed. -/
def nameKey (d : Device) : String :=
  match d.name with
  | some s => s
  | none => ""

/-- Modem.add: store the device by id, and by name when the name is truthy. -/
def Modem.add (st : Modem) (d : Device) : Modem :=
  { st with
    devices := dinsert d.addr.id d st.devices,
    device_names :=
      if truthyName d then dinsert (nameKey d) d st.device_names
      else st.device_names }

/-- Modem.remove: pop the device id, and its name when the name is truthy. -/
def Modem.remove (st : Modem) (d : Device) : Modem :=
  { st with
    devices := dpop d.addr.id st.devices,
    device_names :=
      if truthyName d then dpop (nameKey d) st.device_names
      else st.device_names }

/-- Modem.find: lower string inputs, return the modem for the sentinel
"modem", then try the friendly-name index, then parse as an Address (the
parser is a parameter; failure is the except branch returning None), compare
against the modem address and finally look up the id index. -/
def Modem.find (st : Modem) (parse : String → Option Address) : Token → Option Endpoint
  | .str s =>
    let s := strLower s
    if s = "modem" then some .modem
    else
      match dget s st.device_names with
      | some d => some (.dev d)
      | none =>
        match parse s with
        | none => none
        | some a =>
          if a = st.addr then some .modem
          else (dget a.id st.devices).map .dev
  | .addr a =>
    if a = st.addr then some .modem
    else (dget a.id st.devices).map .dev

/-- Modem.link_data: the default 3-byte payload derived from (group, role);
both roles return bytes([group, 0x00, 0x00]). -/
def Modem.link_data (_st : Modem) (group : Nat) (is_controller : Bool) : List Nat :=
  if is_controller then [group, 0x00, 0x00] else [group, 0x00, 0x00]

/-- The data actually stored: the caller bytes, or link_data when omitted. -/
def updateData (st : Modem) (group : Nat) (is_controller : Bool) :
    Option (List Nat) → List Nat
  | none => st.link_data group is_controller
  | some b => b

/-- Modelled from the spec: the CommandSeq of a db update is embedded as the
ordered list of the steps seq.add enqueued (CommandSeq.py is not part of the
sources; spec section 4.3 makes it an ordered list of pending async steps
run strictly one at a time). -/
inductive Step where
  | dbAddOnDevice (entry : ModemEntry)
  | devDbAddRespOf (target : Endpoint) (peer : Address) (group : Nat)
      (data : Option (List Nat)) (two_way : Bool) (refresh : Bool)
  | devDbAddCtrlOf (target : Endpoint) (peer : Address) (group : Nat)
      (data : Option (List Nat)) (two_way : Bool) (refresh : Bool)
  | dbDeleteOnDevice (entry : ModemEntry)
  | devDbDelRespOf (target : Endpoint) (peer : Address) (group : Nat)
      (two_way : Bool) (refresh : Bool)
  | devDbDelCtrlOf (target : Endpoint) (peer : Address) (group : Nat)
      (two_way : Bool) (refresh : Bool)
deriving DecidableEq, Repr

/-- The address variable after the remote lookup: Modem._db_update and
Modem._db_delete replace the input with remote.addr when find resolved it. -/
def resolvedToken (st : Modem) (parse : String → Option Address) (addr : Token) :
    Token :=
  match st.find parse addr with
  | some e => .addr (endpointAddr st e)
  | none => addr

/-- Modem._db_update: resolve the remote, log a one-direction warning when a
two-way update cannot find it (returned as some (role, address)), build the
ModemEntry with the requested role, enqueue the local db.add_on_device step
and, when two-way and resolved, the complementary add on the remote with the
modem address as peer, data None and two_way forced False.  Returns the
enqueued steps and the optional warning. -/
def Modem.db_update (st : Modem) (parse : String → Option Address) (addr : Token)
    (group : Nat) (data : Option (List Nat)) (two_way : Bool)
    (is_controller : Bool) (refresh : Bool) :
    List Step × Option (Bool × Token) :=
  let remote := st.find parse addr
  let addr1 := resolvedToken st parse addr
  let warn : Option (Bool × Token) :=
    if two_way && remote.isNone then some (is_controller, addr1) else none
  let d := updateData st group is_controller data
  let entry : ModemEntry := ⟨addr1, group, is_controller, d⟩
  let steps :=
    [Step.dbAddOnDevice entry] ++
      (match remote with
       | some e =>
         if two_way then
           [if is_controller then Step.devDbAddRespOf e st.addr group none false refresh
            else Step.devDbAddCtrlOf e st.addr group none false refresh]
         else []
       | none => [])
  (steps, warn)

/-- Modem.db_add_ctrl_of: delegate to the update with is_controller=True. -/
def Modem.db_add_ctrl_of (st : Modem) (parse : String → Option Address)
    (addr : Token) (group : Nat) (data : Option (List Nat)) (two_way : Bool)
    (refresh : Bool) : List Step × Option (Bool × Token) :=
  st.db_update parse addr group data two_way true refresh

/-- Modem.db_add_resp_of: delegate to the update with is_controller=False. -/
def Modem.db_add_resp_of (st : Modem) (parse : String → Option Address)
    (addr : Token) (group : Nat) (data : Option (List Nat)) (two_way : Bool)
    (refresh : Bool) : List Step × Option (Bool × Token) :=
  st.db_update parse addr group data two_way false refresh

/-- Modelled from the spec: db.Modem.find is the mirror lookup
find-by-(address, group, role) (db/Modem.py is not part of the sources;
spec section 4.2).  Returns the first entry with that identity. -/
def db_find (entries : List ModemEntry) (addr : Token) (group : Nat)
    (is_controller : Bool) : Option ModemEntry :=
  entries.find? (fun e =>
    decide (e.addr = addr) && decide (e.group = group) &&
      decide (e.is_controller = is_controller))

/-- Outcome of Modem._db_delete before any transport activity: the lookup
failure branch calls on_done(False, "Entry doesn't exist", None) directly —
cbFail — or, when on_done is None, calling None raises a TypeError — raised;
otherwise the built CommandSeq holds the enqueued steps. -/
inductive DelResult where
  | cbFail (success : Bool) (msg : String)
  | raised
  | seqSteps (steps : List Step)
deriving DecidableEq, Repr

/-- Steps a delete outcome enqueued (none on the failure branches). -/
def stepsOfDel : DelResult → List Step
  | .seqSteps l => l
  | _ => []

/-- Modem._db_delete: resolve the remote, log the one-direction message when
a two-way delete cannot find it, look the entry up in the local mirror —
on a miss call on_done(False, "Entry doesn't exist", None) and return with
nothing enqueued (raising when on_done is None) — else enqueue the local
db.delete_on_device step and, when two-way and resolved, the complementary
delete on the remote with the modem address as peer and two_way forced
False. -/
def Modem.db_delete (st : Modem) (parse : String → Option Address) (addr : Token)
    (group : Nat) (is_controller : Bool) (two_way : Bool) (refresh : Bool)
    (has_on_done : Bool) : DelResult × Option (Bool × Token) :=
  let remote := st.find parse addr
  let addr1 := resolvedToken st parse addr
  let warn : Option (Bool × Token) :=
    if two_way && remote.isNone then some (is_controller, addr1) else none
  match db_find st.db addr1 group is_controller with
  | none =>
    (if has_on_done then DelResult.cbFail false "Entry doesn\x27t exist"
     else DelResult.raised, warn)
  | some entry =>
    let steps :=
      [Step.dbDeleteOnDevice entry] ++
        (match remote with
         | some e =>
           if two_way then
             [if is_controller then Step.devDbDelRespOf e st.addr group false refresh
              else Step.devDbDelCtrlOf e st.addr group false refresh]
           else []
         | none => [])
    (DelResult.seqSteps steps, warn)

/-- Modem.db_del_ctrl_of: delegate to the delete with is_controller=True. -/
def Modem.db_del_ctrl_of (st : Modem) (parse : String → Option Address)
    (addr : Token) (group : Nat) (two_way : Bool) (refresh : Bool)
    (has_on_done : Bool) : DelResult × Option (Bool × Token) :=
  st.db_delete parse addr group true two_way refresh has_on_done

/-- Modem.db_del_resp_of: delegate to the delete with is_controller=False. -/
def Modem.db_del_resp_of (st : Modem) (parse : String → Option Address)
    (addr : Token) (group : Nat) (two_way : Bool) (refresh : Bool)
    (has_on_done : Bool) : DelResult × Option (Bool × Token) :=
  st.db_delete parse addr group false two_way refresh has_on_done

/-! Refresh orchestration. -/

/-- One call refresh_all issues: the modem refresh, or device.refresh(force,
on_done=callback) where cb records whether the supplied completion callback
(rather than None) was passed. -/
inductive REvent where
  | modemRefresh
  | deviceRefresh (d : Device) (force : Bool) (cb : Bool)
deriving DecidableEq, Repr

/-- The enumerate loop of Modem.refresh_all: index i runs over the devices,
the callback is attached exactly when i equals n - 1 where n is the size of
the registry. -/
def refreshLoop (force : Bool) (n : Nat) (i : Nat) : List Device → List REvent
  | [] => []
  | d :: ds =>
    REvent.deviceRefresh d force (decide (i = n - 1)) :: refreshLoop force n (i + 1) ds

/-- Modem.refresh_all: refresh the modem itself, then every registered
device in registry iteration order, passing the completion callback only at
the last index of the enumeration. -/
def Modem.refresh_all (st : Modem) (force : Bool) : List REvent :=
  REvent.modemRefresh ::
    refreshLoop force st.devices.length 0 (st.devices.map Prod.snd)

/-- Number of device refreshes that carry the completion callback. -/
def cbCount (evs : List REvent) : Nat :=
  evs.countP (fun e =>
    match e with
    | .deviceRefresh _ _ true => true
    | _ => false)

/-- The device an event refreshes, if any. -/
def devOf : REvent → Option Device
  | .deviceRefresh d _ _ => some d
  | .modemRefresh => none

/-! Command dispatch facade. -/

/-- A Python value that can sit under the cmd key of the run_command
keyword dictionary (container values behave like the other non-string
cases: falsy when empty, otherwise truthy and non-string). -/
inductive PyVal where
  | pnone
  | pstr (s : String)
  | pint (n : Int)
  | pbool (b : Bool)
deriving DecidableEq, Repr

/-- Python truthiness of such a value. -/
def pyTruthy : PyVal → Bool
  | .pnone => false
  | .pstr s => decide (s ≠ "")
  | .pint n => decide (n ≠ 0)
  | .pbool b => b

/-- The keys of self.cmd_map, in source order. -/
def cmd_map : List String :=
  ["db_add_ctrl_of", "db_add_resp_of", "db_del_ctrl_of", "db_del_resp_of",
   "refresh", "refresh_all", "linking"]

/-- What leaves Modem.run_command: the early logged returns, the uncaught
exception from cmd.lower() on a truthy non-string cmd, the caught-and-logged
failure of the bound call, or the successful invocation. -/
inductive DispatchResult where
  | droppedNoCmd
  | raised
  | droppedUnknownCmd (s : String)
  | droppedBadArgs (s : String)
  | invoked (s : String)
deriving DecidableEq, Repr

/-- Modem.run_command: pop cmd (falsy means log and drop); cmd.lower().strip()
raises on a truthy non-string and that exception escapes; unknown names are
logged and dropped; the bound call runs inside try/except, so a raising
argument shape (args_raise) is caught and logged. -/
def run_command (cmd : PyVal) (args_raise : Bool) : DispatchResult :=
  if !pyTruthy cmd then .droppedNoCmd
  else
    match cmd with
    | .pstr s =>
      let c := strStrip (strLower s)
      if cmd_map.contains c then
        if args_raise then .droppedBadArgs c else .invoked c
      else .droppedUnknownCmd c
    | _ => .raised

/-! Local database persistence. -/

/-- Modelled from the spec: the state of the stored database document as
load_db observes it — the file is absent, the read or json parse raises
(corrupt), or it parses into a list of entries (persistence and
db.Modem.from_json are not part of the sources; spec section 4.2). -/
inductive FileState where
  | absent
  | corrupt
  | good (entries : List ModemEntry)
deriving DecidableEq, Repr

/-- Modem.load_db: return early when the file is absent; read and parse
inside try/except — an exception is logged (the Bool) and the method
returns leaving the mirror as it was; on success replace the mirror.  The
mirror is empty at the only call site since the constructor builds an empty
db.Modem(). -/
def Modem.load_db (st : Modem) : FileState → Modem × Bool
  | .absent => (st, false)
  | .corrupt => (st, true)
  | .good es => ({ st with db := es }, false)

/-! Resolution-order specifications for Modem.find, used to settle the
claim about its behavior by refinement. -/

/-- The resolution order exactly as the claim states it: (a) a string equal
case-insensitively to "modem" is the modem; (b) otherwise an exact
friendly-name match of the token in the name index; (c) otherwise the token
is parsed as an Address, failure is none, the modem address is the modem,
anything else is the id lookup. -/
def specFindClaimed (st : Modem) (parse : String → Option Address) :
    Token → Option Endpoint
  | .str s =>
    if strLower s = "modem" then some .modem
    else
      match dget s st.device_names with
      | some d => some (.dev d)
      | none =>
        match parse s with
        | none => none
        | some a =>
          if a = st.addr then some .modem
          else (dget a.id st.devices).map .dev
  | .addr a =>
    if a = st.addr then some .modem
    else (dget a.id st.devices).map .dev

/-- The amended resolution order: the same as the claim except that steps
(b) and (c) act on the lowercased token — an exact match of the lowercased
token in the name index, then parsing the lowercased token. -/
def specFindAmended (st : Modem) (parse : String → Option Address) :
    Token → Option Endpoint
  | .str s =>
    if strLower s = "modem" then some .modem
    else
      match dget (strLower s) st.device_names with
      | some d => some (.dev d)
      | none =>
        match parse (strLower s) with
        | none => none
        | some a =>
          if a = st.addr then some .modem
          else (dget a.id st.devices).map .dev
  | .addr a =>
    if a = st.addr then some .modem
    else (dget a.id st.devices).map .dev

/-! Concrete fixtures used by witnesses and counterexamples. -/

/-- A parser that accepts nothing: every token is an invalid address. -/
def parseNone : String → Option Address := fun _ => none

/-- A device with friendly name "lamp" at address 2. -/
def lampDev : Device := ⟨⟨2⟩, some "lamp"⟩

/-- A modem at address 1 with the lamp registered. -/
def stLamp : Modem := ⟨⟨1⟩, [(2, lampDev)], [("lamp", lampDev)], []⟩

/-- A modem at address 1 with an empty registry and mirror. -/
def stE : Modem := ⟨⟨1⟩, [], [], []⟩

/-- A nameless device at address 5. -/
def d7 : Device := ⟨⟨5⟩, none⟩

/-- A modem that already has d7 registered. -/
def st7 : Modem := ⟨⟨1⟩, [(5, d7)], [], []⟩

/-! Dictionary lemmas for the registry round trip. -/

theorem containsKey_false_forall {κ α : Type} [DecidableEq κ] {k : κ}
    {l : List (κ × α)} (h : containsKey k l = false) : ∀ p ∈ l, p.1 ≠ k := by
  intro p hp
  simp only [containsKey, List.any_eq_false, decide_eq_true_eq] at h
  exact h p hp

theorem dinsert_of_fresh {κ α : Type} [DecidableEq κ] (k : κ) (v : α)
    (l : List (κ × α)) (h : containsKey k l = false) :
    dinsert k v l = l ++ [(k, v)] := by
  simp [dinsert, h]

theorem dpop_append_fresh {κ α : Type} [DecidableEq κ] (k : κ) (v : α)
    (l : List (κ × α)) (h : containsKey k l = false) :
    dpop k (l ++ [(k, v)]) = l := by
  have hne : ∀ p ∈ l, p.1 ≠ k := containsKey_false_forall h
  unfold dpop
  rw [List.filter_append]
  have h1 : List.filter (fun p => decide (p.1 ≠ k)) [(k, v)] = [] := by simp
  have h2 : List.filter (fun p => decide (p.1 ≠ k)) l = l :=
    List.filter_eq_self.mpr (by intro p hp; simpa using hne p hp)
  rw [h1, h2, List.append_nil]

theorem dinsert_idem {κ α : Type} [DecidableEq κ] (k : κ) (v : α)
    (l : List (κ × α)) : dinsert k v (dinsert k v l) = dinsert k v l := by
  by_cases hc : containsKey k l = true
  · have hmap : dinsert k v l = l.map (fun p => if p.1 = k then (k, v) else p) := by
      simp [dinsert, hc]
    have hc2 : containsKey k (l.map (fun p => if p.1 = k then (k, v) else p)) = true := by
      simp only [containsKey, List.any_eq_true, decide_eq_true_eq] at hc ⊢
      obtain ⟨p, hp, hk⟩ := hc
      exact ⟨(k, v), List.mem_map.mpr ⟨p, hp, by simp [hk]⟩, rfl⟩
    rw [hmap]
    simp only [dinsert, hc2, if_true]
    rw [List.map_map]
    apply List.map_congr_left
    intro p _
    by_cases hk : p.1 = k <;> simp [Function.comp, hk]
  · have hc0 : containsKey k l = false := by revert hc; cases containsKey k l <;> simp
    have happ : dinsert k v l = l ++ [(k, v)] := dinsert_of_fresh k v l hc0
    have hne : ∀ p ∈ l, p.1 ≠ k := containsKey_false_forall hc0
    have hc2 : containsKey k (l ++ [(k, v)]) = true := by
      simp [containsKey]
    rw [happ]
    simp only [dinsert, hc2, if_true]
    rw [List.map_append]
    have hmapl : l.map (fun p => if p.1 = k then (k, v) else p) = l.map id :=
      List.map_congr_left (by intro p hp; simp [hne p hp])
    have hmapr : [(k, v)].map (fun p : κ × α => if p.1 = k then (k, v) else p) = [(k, v)] := by
      simp
    rw [hmapl, List.map_id, hmapr]

theorem dpop_idem {κ α : Type} [DecidableEq κ] (k : κ) (l : List (κ × α)) :
    dpop k (dpop k l) = dpop k l := by
  simp [dpop, List.filter_filter]

/-! Structure of the refresh_all event list. -/

theorem refreshLoop_map_devOf (f : Bool) (n : Nat) :
    ∀ (l : List Device) (i : Nat), (refreshLoop f n i l).map devOf = l.map some := by
  intro l
  induction l with
  | nil => intro i; rfl
  | cons d ds ih => intro i; simp [refreshLoop, devOf, ih]

theorem refreshLoop_cbCount (f : Bool) (n : Nat) :
    ∀ (l : List Device) (i : Nat), i + l.length = n → l ≠ [] →
      cbCount (refreshLoop f n i l) = 1 := by
  intro l
  induction l with
  | nil => intro i _ hne; exact absurd rfl hne
  | cons d ds ih =>
    intro i hlen _
    cases ds with
    | nil =>
      have hi : i = n - 1 := by simp at hlen; omega
      simp [refreshLoop, cbCount, hi]
    | cons e es =>
      have hne : ¬ i = n - 1 := by
        simp only [List.length_cons] at hlen; omega
      have h2 : (i + 1) + (e :: es).length = n := by
        simp only [List.length_cons] at hlen ⊢; omega
      have hih := ih (i + 1) h2 (by simp)
      have hd : (decide (i = n - 1)) = false := by simp [hne]
      have hstep : refreshLoop f n i (d :: e :: es) =
          REvent.deviceRefresh d f (decide (i = n - 1)) ::
            refreshLoop f n (i + 1) (e :: es) := rfl
      simp only [cbCount] at hih ⊢
      rw [hstep, List.countP_cons, hd]
      simpa using hih

theorem refreshLoop_getLast (f : Bool) (n : Nat) :
    ∀ (l : List Device) (i : Nat) (a : Device), l.getLast? = some a →
      i + l.length = n →
      (refreshLoop f n i l).getLast? = some (REvent.deviceRefresh a f true) := by
  intro l
  induction l with
  | nil => intro i a h _; simp at h
  | cons d ds ih =>
    intro i a hlast hlen
    cases ds with
    | nil =>
      simp only [List.getLast?_singleton, Option.some.injEq] at hlast
      subst hlast
      have hi : i = n - 1 := by simp at hlen; omega
      simp [refreshLoop, hi]
    | cons e es =>
      rw [List.getLast?_cons_cons] at hlast
      have h2 : (i + 1) + (e :: es).length = n := by
        simp only [List.length_cons] at hlen ⊢; omega
      have hih := ih (i + 1) a hlast h2
      simp only [refreshLoop] at hih ⊢
      rw [List.getLast?_cons_cons]
      exact hih

/-! Claim theorems. -/

/-- C1: for every two-way add (db_add_ctrl_of or db_add_resp_of) whose
target resolves via find, the command sequence holds exactly two steps in
order — the local record write on the modem with the requested role, then
the complementary add (opposite role) on the target with the modem address
as peer, the same group and the two-way flag forced off. -/
theorem c1_two_way_add_enqueues_reversed_pair (st : Modem)
    (parse : String → Option Address) (addr : Token) (group : Nat)
    (data : Option (List Nat)) (refresh : Bool) (e : Endpoint)
    (h : st.find parse addr = some e) :
    (st.db_add_ctrl_of parse addr group data true refresh).fst =
      [Step.dbAddOnDevice ⟨Token.addr (endpointAddr st e), group, true,
          updateData st group true data⟩,
       Step.devDbAddRespOf e st.addr group none false refresh] ∧
    (st.db_add_resp_of parse addr group data true refresh).fst =
      [Step.dbAddOnDevice ⟨Token.addr (endpointAddr st e), group, false,
          updateData st group false data⟩,
       Step.devDbAddCtrlOf e st.addr group none false refresh] := by
  constructor <;>
    simp [Modem.db_add_ctrl_of, Modem.db_add_resp_of, Modem.db_update,
      resolvedToken, h]

theorem c1_two_way_add_enqueues_reversed_pair_witness :
    Modem.find stLamp parseNone (Token.str "lamp") = some (Endpoint.dev lampDev) ∧
    ((stLamp.db_add_ctrl_of parseNone (Token.str "lamp") 3 (some [1, 2, 3]) true true).fst =
      [Step.dbAddOnDevice ⟨Token.addr (endpointAddr stLamp (Endpoint.dev lampDev)), 3, true,
          updateData stLamp 3 true (some [1, 2, 3])⟩,
       Step.devDbAddRespOf (Endpoint.dev lampDev) stLamp.addr 3 none false true] ∧
     (stLamp.db_add_resp_of parseNone (Token.str "lamp") 3 (some [1, 2, 3]) true true).fst =
      [Step.dbAddOnDevice ⟨Token.addr (endpointAddr stLamp (Endpoint.dev lampDev)), 3, false,
          updateData stLamp 3 false (some [1, 2, 3])⟩,
       Step.devDbAddCtrlOf (Endpoint.dev lampDev) stLamp.addr 3 none false true]) :=
  ⟨by decide,
   c1_two_way_add_enqueues_reversed_pair stLamp parseNone (Token.str "lamp") 3
     (some [1, 2, 3]) true (Endpoint.dev lampDev) (by decide)⟩

/-- C5: a two-way add whose target does not resolve via find degrades: a
single step — the local record write — is enqueued, and the one-direction
message naming the role and the address is logged. -/
theorem c5_two_way_add_unresolved_degrades (st : Modem)
    (parse : String → Option Address) (addr : Token) (group : Nat)
    (data : Option (List Nat)) (is_controller refresh : Bool)
    (h : st.find parse addr = none) :
    (st.db_update parse addr group data true is_controller refresh).fst =
      [Step.dbAddOnDevice ⟨addr, group, is_controller,
          updateData st group is_controller data⟩] ∧
    (st.db_update parse addr group data true is_controller refresh).snd =
      some (is_controller, addr) := by
  constructor <;> simp [Modem.db_update, resolvedToken, h]

theorem c5_two_way_add_unresolved_degrades_witness :
    Modem.find stE parseNone (Token.str "xyz") = none ∧
    ((stE.db_update parseNone (Token.str "xyz") 3 none true true true).fst =
      [Step.dbAddOnDevice ⟨Token.str "xyz", 3, true, updateData stE 3 true none⟩] ∧
     (stE.db_update parseNone (Token.str "xyz") 3 none true true true).snd =
      some (true, Token.str "xyz")) :=
  ⟨by decide,
   c5_two_way_add_unresolved_degrades stE parseNone (Token.str "xyz") 3 none
     true true (by decide)⟩

/-- C9: the second step of a resolved two-way add always passes payload
None to the remote endpoint, whatever bytes the caller supplied for the
local record: the remote record payload is derived remotely, never copied. -/
theorem c9_remote_step_payload_is_none (st : Modem)
    (parse : String → Option Address) (addr : Token) (group : Nat)
    (data : Option (List Nat)) (is_controller refresh : Bool) (e : Endpoint)
    (h : st.find parse addr = some e) :
    ((st.db_update parse addr group data true is_controller refresh).fst).drop 1 =
      [if is_controller then Step.devDbAddRespOf e st.addr group none false refresh
       else Step.devDbAddCtrlOf e st.addr group none false refresh] := by
  simp [Modem.db_update, resolvedToken, h]

theorem c9_remote_step_payload_is_none_witness :
    Modem.find stLamp parseNone (Token.str "lamp") = some (Endpoint.dev lampDev) ∧
    ((stLamp.db_update parseNone (Token.str "lamp") 3 (some [9, 9, 9]) true true true).fst).drop 1 =
      [if true then Step.devDbAddRespOf (Endpoint.dev lampDev) stLamp.addr 3 none false true
       else Step.devDbAddCtrlOf (Endpoint.dev lampDev) stLamp.addr 3 none false true] :=
  ⟨by decide,
   c9_remote_step_payload_is_none stLamp parseNone (Token.str "lamp") 3
     (some [9, 9, 9]) true true (Endpoint.dev lampDev) (by decide)⟩

/-- C2: a delete whose (address, group, role) identity is absent from the
local mirror fails immediately when a completion callback was supplied: the
callback is invoked synchronously with (False, "Entry doesn\x27t exist",
None), and no step is enqueued (hence nothing can mutate any mirror). -/
theorem c2_delete_missing_entry_fails (st : Modem)
    (parse : String → Option Address) (addr : Token) (group : Nat)
    (is_controller two_way refresh : Bool)
    (h : db_find st.db (resolvedToken st parse addr) group is_controller = none) :
    (st.db_delete parse addr group is_controller two_way refresh true).fst =
      DelResult.cbFail false "Entry doesn\x27t exist" ∧
    stepsOfDel (st.db_delete parse addr group is_controller two_way refresh true).fst =
      [] := by
  constructor <;> simp [Modem.db_delete, stepsOfDel, h]

theorem c2_delete_missing_entry_fails_witness :
    db_find stE.db (resolvedToken stE parseNone (Token.str "xyz")) 3 true = none ∧
    ((stE.db_delete parseNone (Token.str "xyz") 3 true true true true).fst =
      DelResult.cbFail false "Entry doesn\x27t exist" ∧
     stepsOfDel (stE.db_delete parseNone (Token.str "xyz") 3 true true true true).fst =
      []) :=
  ⟨by decide,
   c2_delete_missing_entry_fails stE parseNone (Token.str "xyz") 3 true true
     true (by decide)⟩

/-- C10: the same missing-entry delete with on_done left at its default of
None raises instead of reporting through the callback channel: the code
invokes the None callback, a TypeError. -/
theorem c10_delete_missing_entry_no_callback_raises (st : Modem)
    (parse : String → Option Address) (addr : Token) (group : Nat)
    (is_controller two_way refresh : Bool)
    (h : db_find st.db (resolvedToken st parse addr) group is_controller = none) :
    (st.db_delete parse addr group is_controller two_way refresh false).fst =
      DelResult.raised := by
  simp [Modem.db_delete, h]

theorem c10_delete_missing_entry_no_callback_raises_witness :
    db_find stE.db (resolvedToken stE parseNone (Token.str "pqr")) 4 false = none ∧
    (stE.db_delete parseNone (Token.str "pqr") 4 false true true false).fst =
      DelResult.raised :=
  ⟨by decide,
   c10_delete_missing_entry_no_callback_raises stE parseNone (Token.str "pqr")
     4 false true true (by decide)⟩

/-- C3: run_command does not catch everything — a truthy non-string cmd
value reaches cmd.lower() before any validation and the AttributeError
escapes run_command, contradicting the never-raises dispatch contract. -/
theorem c3_nonstring_cmd_raises :
    run_command (PyVal.pint 5) false = DispatchResult.raised := rfl

/-- C4 counterexample: with a device registered under the friendly name
"lamp", the token "LAMP" has no exact friendly-name match only after
lowering; the claim as stated (exact match of the token itself, then parse
of the token) answers none, while find lowers first and returns the lamp. -/
theorem c4_find_exact_name_counterexample :
    Modem.find stLamp parseNone (Token.str "LAMP") = some (Endpoint.dev lampDev) ∧
    specFindClaimed stLamp parseNone (Token.str "LAMP") = none := by
  constructor <;> decide

/-- C4 (amended): find resolves, in order, (a) a string equal
case-insensitively to "modem" is the modem itself, (b) otherwise an exact
match of the lowercased token in the friendly-name index is that device,
(c) otherwise the lowercased token is parsed as an Address — parse failure
is none, the modem address is the modem, anything else the id lookup — and
find is a total function, never raising. -/
theorem c4_find_resolution_order (st : Modem) (parse : String → Option Address)
    (t : Token) : st.find parse t = specFindAmended st parse t := by
  cases t <;> rfl

/-- C6 counterexample: with an empty registry, refresh_all attaches the
completion callback to none of the device refreshes, not to exactly one. -/
theorem c6_empty_registry_counterexample :
    ¬ cbCount (stE.refresh_all false) = 1 := by decide

/-- C6 (amended): with at least one registered device, refresh_all first
triggers the modem refresh, then one refresh per registered device in
registry iteration order, and the supplied completion callback is attached
to exactly one of them — the last device in that order.  With an empty
registry there is no device refresh and the callback is attached to none. -/
theorem c6_refresh_all_structure (st : Modem) (force : Bool) (p : Device)
    (h : (st.devices.map Prod.snd).getLast? = some p) :
    (st.refresh_all force).head? = some REvent.modemRefresh ∧
    (st.refresh_all force).tail.map devOf = st.devices.map (fun q => some q.2) ∧
    cbCount (st.refresh_all force) = 1 ∧
    (st.refresh_all force).getLast? =
      some (REvent.deviceRefresh p force true) := by
  have hne : st.devices.map Prod.snd ≠ [] := by
    intro h0; rw [h0] at h; simp at h
  have hlen : 0 + (st.devices.map Prod.snd).length = st.devices.length := by simp
  refine ⟨rfl, ?_, ?_, ?_⟩
  · simp [Modem.refresh_all, refreshLoop_map_devOf, List.map_map, Function.comp]
  · have hc := refreshLoop_cbCount force st.devices.length
      (st.devices.map Prod.snd) 0 hlen hne
    simp only [Modem.refresh_all, cbCount, List.countP_cons] at hc ⊢
    simpa using hc
  · have hL := refreshLoop_getLast force st.devices.length
      (st.devices.map Prod.snd) 0 p h hlen
    rcases hvals : st.devices.map Prod.snd with _ | ⟨v, vs⟩
    · exact absurd hvals hne
    · rw [hvals] at hL
      simp only [Modem.refresh_all, hvals]
      simp only [refreshLoop] at hL ⊢
      rw [List.getLast?_cons_cons]
      exact hL

theorem c6_refresh_all_structure_witness :
    (stLamp.devices.map Prod.snd).getLast? = some lampDev ∧
    ((stLamp.refresh_all false).head? = some REvent.modemRefresh ∧
     (stLamp.refresh_all false).tail.map devOf =
       stLamp.devices.map (fun q => some q.2) ∧
     cbCount (stLamp.refresh_all false) = 1 ∧
     (stLamp.refresh_all false).getLast? =
       some (REvent.deviceRefresh lampDev false true)) :=
  ⟨by decide, c6_refresh_all_structure stLamp false lampDev (by decide)⟩

/-- C7 counterexample: when the device is already registered, register
followed by deregister does not restore the lookup surface — it removes the
pre-existing registration. -/
theorem c7_already_registered_counterexample :
    ¬ (st7.add d7).remove d7 = st7 := by decide

/-- C7 (amended): provided the device id is not already a key of the id
index and its friendly name (when present and nonempty) is not already a
key of the name index, register followed by deregister restores both
indexes exactly; register and deregister are idempotent adds and removes
keyed by canonical id plus the friendly-name index when a name is present. -/
theorem c7_register_deregister_roundtrip (st : Modem) (d : Device)
    (h1 : containsKey d.addr.id st.devices = false)
    (h2 : truthyName d = true → containsKey (nameKey d) st.device_names = false) :
    (st.add d).remove d = st ∧ (st.add d).add d = st.add d ∧
      (st.remove d).remove d = st.remove d := by
  refine ⟨?_, ?_, ?_⟩
  · by_cases ht : truthyName d = true
    · simp only [Modem.add, Modem.remove, ht, if_true]
      rw [dinsert_of_fresh _ _ _ h1, dpop_append_fresh _ _ _ h1,
        dinsert_of_fresh _ _ _ (h2 ht), dpop_append_fresh _ _ _ (h2 ht)]
    · simp only [Modem.add, Modem.remove, ht, Bool.false_eq_true, if_false]
      rw [dinsert_of_fresh _ _ _ h1, dpop_append_fresh _ _ _ h1]
  · by_cases ht : truthyName d = true
    · simp only [Modem.add, ht, if_true]
      rw [dinsert_idem, dinsert_idem]
    · simp only [Modem.add, ht, Bool.false_eq_true, if_false]
      rw [dinsert_idem]
  · by_cases ht : truthyName d = true
    · simp only [Modem.remove, ht, if_true]
      rw [dpop_idem, dpop_idem]
    · simp only [Modem.remove, ht, Bool.false_eq_true, if_false]
      rw [dpop_idem]

theorem c7_register_deregister_roundtrip_witness :
    (containsKey d7.addr.id stE.devices = false ∧
      (truthyName d7 = true → containsKey (nameKey d7) stE.device_names = false)) ∧
    ((stE.add d7).remove d7 = stE ∧ (stE.add d7).add d7 = stE.add d7 ∧
      (stE.remove d7).remove d7 = stE.remove d7) :=
  ⟨⟨by decide, by decide⟩,
   c7_register_deregister_roundtrip stE d7 (by decide) (by decide)⟩

/-- C8: loading the local mirror never raises past its boundary (load_db is
total over every file state): starting from the constructor state whose
mirror is empty, an absent file leaves the mirror empty without an error,
and an unreadable or corrupt document is logged and leaves the mirror in
the empty state, the operation continuing. -/
theorem c8_load_db_degrades_to_empty (st : Modem) (h : st.db = []) :
    (st.load_db FileState.absent).fst.db = [] ∧
    (st.load_db FileState.absent).snd = false ∧
    (st.load_db FileState.corrupt).fst.db = [] ∧
    (st.load_db FileState.corrupt).snd = true := by
  refine ⟨?_, rfl, ?_, rfl⟩ <;> simp [Modem.load_db, h]

theorem c8_load_db_degrades_to_empty_witness :
    stE.db = [] ∧
    ((stE.load_db FileState.absent).fst.db = [] ∧
     (stE.load_db FileState.absent).snd = false ∧
     (stE.load_db FileState.corrupt).fst.db = [] ∧
     (stE.load_db FileState.corrupt).snd = true) :=
  ⟨rfl, c8_load_db_degrades_to_empty stE rfl⟩

end InsteonMqtt
